import Mathlib

/-!
Shallow embedding of `calculate_hours_of_daylight.js` over the real numbers.

The source is a small library of pure numerical functions computing the
number of daylight hours at a given latitude on an orbiting planet.
Each JavaScript function is translated into a Lean definition over `ℝ`;
the options object of the entry point becomes the `Config` structure, and
the inline destructuring defaults become `defaultConfig`.  Diagnostic
`console.log` calls have no effect on any computed value and are omitted;
the unused angular-velocity intermediate of the entry point is kept as an
unused `let` to mirror the source.
-/

open Real

noncomputable section

/-- Configuration record: the fields of the options object accepted by
`calculateHoursOfDaylight`, together with `gravitationalConstant`
(accepted by `calculateAngularVelocity`; ignored by the entry point,
which always applies the default constant). -/
structure Config where
  orbitDay : ℝ
  latitude : ℝ
  lastSolsticeDay : ℝ
  secondsPerDay : ℝ
  daysPerYear : ℝ
  eccentricity : ℝ
  semiMajorAxis : ℝ
  massOfSun : ℝ
  axialTilt : ℝ
  solarRadius : ℝ
  refractionAtSunset : ℝ
  gravitationalConstant : ℝ

/-- The documented Earth-like defaults of the entry point's destructuring,
with the two mandatory fields `orbitDay` and `latitude` supplied. -/
def defaultConfig (orbitDay latitude : ℝ) : Config where
  orbitDay := orbitDay
  latitude := latitude
  lastSolsticeDay := 349
  secondsPerDay := 24 * 60 * 60
  daysPerYear := 365.259
  eccentricity := 0.0167
  semiMajorAxis := 1496e8
  massOfSun := 1.989e30
  axialTilt := -23.44
  solarRadius := 696.34e6
  refractionAtSunset := 0.3
  gravitationalConstant := 6.67408e-11

/-- `calculateTrueAnomaly(orbitDay, daysPerYear, eccentricity)`:
mean anomaly `M = 2π·orbitDay/daysPerYear` followed by the third-order
equation-of-center series. -/
def calculateTrueAnomaly (orbitDay daysPerYear eccentricity : ℝ) : ℝ :=
  let M : ℝ := 2 * π * orbitDay / daysPerYear
  let e : ℝ := eccentricity
  M + (2 * e - 0.25 * e ^ 3) * Real.sin M + 5 / 4 * e ^ 2 * Real.sin (2 * M)
    + 13 / 12 * e ^ 3 * Real.sin (3 * M)

/-- `calculateAngularVelocity(trueAnomaly, semiMajorAxis, eccentricity,
massOfSun, gravitationalConstant)`: specific angular momentum
`h = √(G·M·a·(1−e²))`, orbital radius `r = a(1−e²)/(1+e·cos ν)`,
returning `h/r²`. -/
def calculateAngularVelocity (trueAnomaly semiMajorAxis eccentricity massOfSun
    gravitationalConstant : ℝ) : ℝ :=
  let v : ℝ := trueAnomaly
  let a : ℝ := semiMajorAxis
  let e : ℝ := eccentricity
  let G : ℝ := gravitationalConstant
  let M : ℝ := massOfSun
  let h : ℝ := Real.sqrt (G * M * a * (1 - e ^ 2))
  let r : ℝ := a * (1 - e ^ 2) / (1 + e * Real.cos v)
  h / r ^ 2

/-- `calculateSolarMeanAngularVelocity(secondsPerDay) = 2π/secondsPerDay`. -/
def calculateSolarMeanAngularVelocity (secondsPerDay : ℝ) : ℝ :=
  2 * π / secondsPerDay

/-- `calculateAngularSolarPathLength(trueAnomaly, latitude, cfg)`:
the generalized sunrise equation, returning `2·acos(cos ω₀)`. -/
def calculateAngularSolarPathLength (trueAnomaly latitude : ℝ) (cfg : Config) : ℝ :=
  let theta : ℝ := cfg.axialTilt * π / 180
  let phi : ℝ := latitude * π / 180
  let solsticeAnomaly : ℝ :=
    calculateTrueAnomaly cfg.lastSolsticeDay cfg.daysPerYear cfg.eccentricity
  let solarDeclination : ℝ := theta * Real.cos (trueAnomaly - solsticeAnomaly)
  let solarDiscCenter : ℝ :=
    -2 * Real.arcsin (cfg.solarRadius / cfg.semiMajorAxis)
      - cfg.refractionAtSunset * π / 180
  let pm_cos_omega_0 : ℝ :=
    (Real.sin solarDiscCenter - Real.sin phi * Real.sin solarDeclination)
      / (Real.cos phi * Real.cos solarDeclination)
  2 * Real.arccos pm_cos_omega_0

/-- `calculateHoursOfDaylight(cfg)`: the entry point.  The angular-velocity
intermediate `r` is computed (with the default gravitational constant, as in
the source, which omits the argument) but only ever printed in debug mode. -/
def calculateHoursOfDaylight (cfg : Config) : ℝ :=
  let v : ℝ := calculateTrueAnomaly cfg.orbitDay cfg.daysPerYear cfg.eccentricity
  let r : ℝ :=
    calculateAngularVelocity v cfg.semiMajorAxis cfg.eccentricity cfg.massOfSun
      6.67408e-11
  let angularSolarPathLength : ℝ := calculateAngularSolarPathLength v cfg.latitude cfg
  let dayLength : ℝ :=
    angularSolarPathLength / calculateSolarMeanAngularVelocity cfg.secondsPerDay
  dayLength / 60 / 60

/-- Spec-side series for the true anomaly, written directly from the spec's
formula `ν = M + (2e − e³/4)·sin M + (5/4)e²·sin 2M + (13/12)e³·sin 3M`. -/
def specTrueAnomalySeries (M e : ℝ) : ℝ :=
  M + (2 * e - e ^ 3 / 4) * Real.sin M + 5 / 4 * e ^ 2 * Real.sin (2 * M)
    + 13 / 12 * e ^ 3 * Real.sin (3 * M)

/-- The anomaly at the most recent solstice, as recomputed inside
`calculateAngularSolarPathLength`. -/
def solsticeAnomaly (cfg : Config) : ℝ :=
  calculateTrueAnomaly cfg.lastSolsticeDay cfg.daysPerYear cfg.eccentricity

/-- Spec-side solar declination `δ = θ·cos(ν − ν_solstice)` with
`θ` the axial tilt in radians. -/
def specSolarDeclination (nu : ℝ) (cfg : Config) : ℝ :=
  cfg.axialTilt * π / 180 * Real.cos (nu - solsticeAnomaly cfg)

/-- Spec-side solar disc center depression
`h₀ = −2·asin(solarRadius/semiMajorAxis) − refractionAtSunset·π/180`. -/
def specDiscCenter (cfg : Config) : ℝ :=
  -2 * Real.arcsin (cfg.solarRadius / cfg.semiMajorAxis)
    - cfg.refractionAtSunset * π / 180

end

/-- C3: for every `orbitDay`, `daysPerYear` and eccentricity `e`,
`calculateTrueAnomaly` returns
`M + (2e − e³/4)·sin M + (5/4)e²·sin 2M + (13/12)e³·sin 3M`
with `M = 2π·orbitDay/daysPerYear`, the result in radians and not reduced
mod 2π. -/
theorem calculateTrueAnomaly_eq_series (orbitDay daysPerYear eccentricity : ℝ) :
    calculateTrueAnomaly orbitDay daysPerYear eccentricity =
      specTrueAnomalySeries (2 * π * orbitDay / daysPerYear) eccentricity := by
  simp only [calculateTrueAnomaly, specTrueAnomalySeries]
  norm_num
  left
  ring

/-- C2: `calculateAngularSolarPathLength` returns
`2·acos((sin h₀ − sin φ·sin δ)/(cos φ·cos δ))` with
`δ = θ·cos(ν − ν_solstice)`, `θ` the axial tilt in radians,
`ν_solstice` recomputed by `calculateTrueAnomaly`, and
`h₀ = −2·asin(solarRadius/semiMajorAxis) − refractionAtSunset·π/180`. -/
theorem calculateAngularSolarPathLength_eq (nu lat : ℝ) (cfg : Config) :
    calculateAngularSolarPathLength nu lat cfg =
      2 * Real.arccos ((Real.sin (specDiscCenter cfg)
          - Real.sin (lat * π / 180) * Real.sin (specSolarDeclination nu cfg))
        / (Real.cos (lat * π / 180) * Real.cos (specSolarDeclination nu cfg))) := rfl

/-- C1: the entry point returns the angular solar path length at the day's
true anomaly, divided by the mean solar angular velocity `2π/secondsPerDay`,
then divided by 3600; i.e. it equals `pathLength·secondsPerDay/(2π·3600)`. -/
theorem calculateHoursOfDaylight_eq_pathLength_div (cfg : Config) :
    calculateHoursOfDaylight cfg =
      calculateAngularSolarPathLength
          (calculateTrueAnomaly cfg.orbitDay cfg.daysPerYear cfg.eccentricity)
          cfg.latitude cfg * cfg.secondsPerDay / (2 * π * 3600) := by
  simp only [calculateHoursOfDaylight, calculateSolarMeanAngularVelocity]
  rw [div_div_eq_mul_div, div_div, div_div]
  norm_num

/-- C10: configurations differing only in `massOfSun` and/or
`gravitationalConstant` produce identical day lengths: the angular-velocity
intermediate never enters the returned value. -/
theorem hoursOfDaylight_independent_of_sun_mass (cfg : Config) (m g : ℝ) :
    calculateHoursOfDaylight { cfg with massOfSun := m, gravitationalConstant := g }
      = calculateHoursOfDaylight cfg := rfl

/-- C4: for `a > 0`, `M > 0`, `G > 0`, `0 ≤ e < 1`, `calculateAngularVelocity`
returns `h/r²` with `h = √(G·M·a·(1−e²))` and `r = a(1−e²)/(1+e·cos ν)`,
and the value is strictly positive. -/
theorem calculateAngularVelocity_eq_and_pos (nu a e M G : ℝ)
    (ha : 0 < a) (hM : 0 < M) (hG : 0 < G) (he0 : 0 ≤ e) (he1 : e < 1) :
    calculateAngularVelocity nu a e M G =
        Real.sqrt (G * M * a * (1 - e ^ 2)) /
          (a * (1 - e ^ 2) / (1 + e * Real.cos nu)) ^ 2 ∧
      0 < calculateAngularVelocity nu a e M G := by
  refine ⟨rfl, ?_⟩
  have h1 : (0:ℝ) < 1 - e ^ 2 := by nlinarith
  have h2 : e * -1 ≤ e * Real.cos nu :=
    mul_le_mul_of_nonneg_left (Real.neg_one_le_cos nu) he0
  have hden : (0:ℝ) < 1 + e * Real.cos nu := by nlinarith
  have hr : 0 < a * (1 - e ^ 2) / (1 + e * Real.cos nu) :=
    div_pos (mul_pos ha h1) hden
  have hh : 0 < Real.sqrt (G * M * a * (1 - e ^ 2)) :=
    Real.sqrt_pos.mpr (mul_pos (mul_pos (mul_pos hG hM) ha) h1)
  exact div_pos hh (pow_pos hr 2)

/-- Witness for C4 at `ν = 0`, `a = M = G = 1`, `e = 0`. -/
theorem calculateAngularVelocity_eq_and_pos_witness :
    ((0:ℝ) < 1 ∧ (0:ℝ) < 1 ∧ (0:ℝ) < 1 ∧ (0:ℝ) ≤ 0 ∧ (0:ℝ) < 1) ∧
      (calculateAngularVelocity 0 1 0 1 1 =
          Real.sqrt (1 * 1 * 1 * (1 - 0 ^ 2)) /
            (1 * (1 - 0 ^ 2) / (1 + 0 * Real.cos 0)) ^ 2 ∧
        0 < calculateAngularVelocity 0 1 0 1 1) :=
  ⟨⟨by norm_num, by norm_num, by norm_num, le_refl 0, by norm_num⟩,
    calculateAngularVelocity_eq_and_pos 0 1 0 1 1 (by norm_num) (by norm_num)
      (by norm_num) (le_refl 0) (by norm_num)⟩

/-- C7: with `solarRadius = 0` and `refractionAtSunset = 0` the hour-angle
cosine reduces to `−tan φ·tan δ`, so the returned path length is
`2·acos(−tan φ·tan δ)`. -/
theorem pathLength_point_source (nu lat : ℝ) (cfg : Config)
    (hR : cfg.solarRadius = 0) (hRef : cfg.refractionAtSunset = 0) :
    calculateAngularSolarPathLength nu lat cfg =
      2 * Real.arccos
        (-(Real.tan (lat * π / 180) * Real.tan (specSolarDeclination nu cfg))) := by
  simp only [calculateAngularSolarPathLength, specSolarDeclination, solsticeAnomaly,
    hR, hRef, zero_div, Real.arcsin_zero, mul_zero, neg_zero, zero_mul, sub_zero,
    Real.sin_zero, zero_sub, Real.tan_eq_sin_div_cos]
  congr 2
  ring

/-- Witness for C7 on the default configuration with the solar radius and
refraction zeroed out. -/
theorem pathLength_point_source_witness :
    (({ defaultConfig 0 0 with
          solarRadius := 0,
          refractionAtSunset := 0 } : Config).solarRadius = 0 ∧
      ({ defaultConfig 0 0 with
          solarRadius := 0,
          refractionAtSunset := 0 } : Config).refractionAtSunset = 0) ∧
      calculateAngularSolarPathLength 0 0
          { defaultConfig 0 0 with solarRadius := 0, refractionAtSunset := 0 } =
        2 * Real.arccos (-(Real.tan (0 * π / 180) *
          Real.tan (specSolarDeclination 0
            { defaultConfig 0 0 with solarRadius := 0, refractionAtSunset := 0 }))) :=
  ⟨⟨rfl, rfl⟩, pathLength_point_source 0 0 _ rfl rfl⟩

/-- Advancing `orbitDay` by one period advances the true anomaly by exactly
`2π`: the mean anomaly gains `2π` and every sine term is `2π`-periodic. -/
theorem trueAnomaly_add_period (d Y e : ℝ) (hY : Y ≠ 0) :
    calculateTrueAnomaly (d + Y) Y e = calculateTrueAnomaly d Y e + 2 * π := by
  simp only [calculateTrueAnomaly]
  have hM : 2 * π * (d + Y) / Y = 2 * π * d / Y + 2 * π := by
    field_simp
    ring
  rw [hM,
    show 2 * (2 * π * d / Y + 2 * π) = 2 * (2 * π * d / Y) + 2 * π + 2 * π by ring,
    show 3 * (2 * π * d / Y + 2 * π)
      = 3 * (2 * π * d / Y) + 2 * π + 2 * π + 2 * π by ring]
  simp only [Real.sin_add_two_pi]
  ring

/-- The angular solar path length is unchanged when the true anomaly is
shifted by `2π`: the anomaly enters only through `cos(ν − ν_solstice)`. -/
theorem pathLength_add_two_pi (nu lat : ℝ) (cfg : Config) :
    calculateAngularSolarPathLength (nu + 2 * π) lat cfg =
      calculateAngularSolarPathLength nu lat cfg := by
  simp only [calculateAngularSolarPathLength]
  rw [show nu + 2 * π
        - calculateTrueAnomaly cfg.lastSolsticeDay cfg.daysPerYear cfg.eccentricity
      = nu - calculateTrueAnomaly cfg.lastSolsticeDay cfg.daysPerYear cfg.eccentricity
        + 2 * π by ring,
    Real.cos_add_two_pi]

/-- The angular solar path length ignores the `orbitDay` field of the
configuration record. -/
theorem pathLength_config_orbitDay (v lat x : ℝ) (cfg : Config) :
    calculateAngularSolarPathLength v lat { cfg with orbitDay := x } =
      calculateAngularSolarPathLength v lat cfg := rfl

/-- C8: for `daysPerYear > 0`, the day length is exactly periodic in
`orbitDay` with period `daysPerYear`. -/
theorem hoursOfDaylight_periodic (cfg : Config) (hY : 0 < cfg.daysPerYear) :
    calculateHoursOfDaylight { cfg with orbitDay := cfg.orbitDay + cfg.daysPerYear }
      = calculateHoursOfDaylight cfg := by
  simp only [calculateHoursOfDaylight, pathLength_config_orbitDay]
  rw [trueAnomaly_add_period cfg.orbitDay cfg.daysPerYear cfg.eccentricity hY.ne',
    pathLength_add_two_pi]

/-- Witness for C8 on the default configuration. -/
theorem hoursOfDaylight_periodic_witness :
    0 < (defaultConfig 0 0).daysPerYear ∧
      calculateHoursOfDaylight { defaultConfig 0 0 with
          orbitDay := (defaultConfig 0 0).orbitDay + (defaultConfig 0 0).daysPerYear }
        = calculateHoursOfDaylight (defaultConfig 0 0) :=
  ⟨by norm_num [defaultConfig],
    hoursOfDaylight_periodic (defaultConfig 0 0) (by norm_num [defaultConfig])⟩

/-- `arcsin (1/2) = π/6`. -/
theorem arcsin_one_half : Real.arcsin (1 / 2) = π / 6 := by
  rw [show (1:ℝ)/2 = Real.sin (π/6) by rw [Real.sin_pi_div_six]]
  exact Real.arcsin_sin (by linarith [Real.pi_pos]) (by linarith [Real.pi_pos])

/-- `arccos (√3/2) = π/6`. -/
theorem arccos_sqrt_three_div_two : Real.arccos (Real.sqrt 3 / 2) = π / 6 := by
  rw [Real.arccos_eq_pi_div_two_sub_arcsin,
    show Real.sqrt 3 / 2 = Real.sin (π/3) by rw [Real.sin_pi_div_three],
    Real.arcsin_sin (by linarith [Real.pi_pos]) (by linarith [Real.pi_pos])]
  ring

/-- Counterexample to C6 as stated: with `eccentricity = 0` and
`axialTilt = 0` but the remaining fields at the Earth defaults (nonzero
`solarRadius` and `refractionAtSunset`), the day at the equator on day 0 is
strictly longer than 12 hours, because the disc-center depression `h₀` is
negative. -/
theorem hoursOfDaylight_circular_untilted_defaults_ne_twelve :
    calculateHoursOfDaylight { defaultConfig 0 0 with
        eccentricity := 0, axialTilt := 0 } ≠ 12 := by
  simp only [calculateHoursOfDaylight, calculateAngularSolarPathLength,
    calculateSolarMeanAngularVelocity, defaultConfig, zero_mul, zero_div,
    mul_zero, Real.sin_zero, sub_zero, Real.cos_zero, one_mul, mul_one, div_one]
  have hpi := Real.pi_pos
  have hq1 : (0:ℝ) < 69634e4 / 1496e8 := by norm_num
  have hq2 : (69634e4 : ℝ) / 1496e8 < 1 / 2 := by norm_num
  have harcsin_pos : 0 < Real.arcsin (69634e4 / 1496e8) := Real.arcsin_pos.mpr hq1
  have harcsin_lt : Real.arcsin (69634e4 / 1496e8) < π / 6 := by
    have hmem1 : (69634e4 / 1496e8 : ℝ) ∈ Set.Icc (-1:ℝ) 1 := by
      constructor <;> norm_num
    have hmem2 : (1 / 2 : ℝ) ∈ Set.Icc (-1:ℝ) 1 := by
      constructor <;> norm_num
    have := Real.strictMonoOn_arcsin hmem1 hmem2 hq2
    linarith [this, arcsin_one_half]
  have href : (0:ℝ) < 0.3 * π / 180 := by positivity
  have hrefsmall : (0.3:ℝ) * π / 180 < π / 2 := by nlinarith
  have h0neg : -2 * Real.arcsin (69634e4 / 1496e8) - 0.3 * π / 180 < 0 := by
    linarith
  have h0gt : -π < -2 * Real.arcsin (69634e4 / 1496e8) - 0.3 * π / 180 := by
    linarith
  have hsin :
      Real.sin (-2 * Real.arcsin (69634e4 / 1496e8) - 0.3 * π / 180) < 0 :=
    Real.sin_neg_of_neg_of_neg_pi_lt h0neg h0gt
  have hc : π / 2 <
      Real.arccos (Real.sin (-2 * Real.arcsin (69634e4 / 1496e8) - 0.3 * π / 180)) := by
    rw [Real.arccos_eq_pi_div_two_sub_arcsin]
    have := Real.arcsin_lt_zero.mpr hsin
    linarith
  rw [div_div_eq_mul_div, div_div, div_div]
  rw [ne_eq, div_eq_iff (by positivity)]
  intro habs
  nlinarith [hc, habs]

/-- C6 amended: with `eccentricity = 0`, `axialTilt = 0` and additionally
`solarRadius = 0` and `refractionAtSunset = 0` (remaining fields at the
Earth defaults), the day length is exactly 12 hours for every latitude
strictly between the poles and every `orbitDay`. -/
theorem hoursOfDaylight_twelve_circular_untilted (d lat : ℝ)
    (h1 : -90 < lat) (h2 : lat < 90) :
    calculateHoursOfDaylight { defaultConfig d lat with
        eccentricity := 0, axialTilt := 0, solarRadius := 0,
        refractionAtSunset := 0 } = 12 := by
  simp only [calculateHoursOfDaylight, calculateAngularSolarPathLength,
    calculateSolarMeanAngularVelocity, defaultConfig, zero_mul, zero_div,
    mul_zero, Real.sin_zero, sub_zero, Real.cos_zero, one_mul, mul_one, div_one,
    Real.arcsin_zero, neg_zero, Real.arccos_zero]
  rw [div_div_eq_mul_div, div_div, div_div]
  field_simp
  ring

/-- Witness for the amended C6 at the equator on day 0. -/
theorem hoursOfDaylight_twelve_circular_untilted_witness :
    ((-90:ℝ) < 0 ∧ (0:ℝ) < 90) ∧
      calculateHoursOfDaylight { defaultConfig 0 0 with
          eccentricity := 0, axialTilt := 0, solarRadius := 0,
          refractionAtSunset := 0 } = 12 :=
  ⟨⟨by norm_num, by norm_num⟩,
    hoursOfDaylight_twelve_circular_untilted 0 0 (by norm_num) (by norm_num)⟩

/-- Counterexample to C9 as stated: rescaling `semiMajorAxis` by `k = 2` and
`massOfSun` by `k³ = 8` (Kepler-consistent, all other fields unchanged)
changes the result, because the day length depends on `semiMajorAxis`
through the apparent solar radius `arcsin(solarRadius/semiMajorAxis)`.
At the chosen input the original configuration gives exactly 12 hours and
the rescaled one exactly 20 hours. -/
theorem hoursOfDaylight_scale_counterexample :
    calculateHoursOfDaylight
        { orbitDay := 0, latitude := 0, lastSolsticeDay := 0,
          secondsPerDay := 24 * 60 * 60, daysPerYear := 365, eccentricity := 0,
          semiMajorAxis := 2 * 1, massOfSun := 2 ^ 3 * 1, axialTilt := 0,
          solarRadius := 1, refractionAtSunset := 0,
          gravitationalConstant := 6.67408e-11 } ≠
      calculateHoursOfDaylight
        { orbitDay := 0, latitude := 0, lastSolsticeDay := 0,
          secondsPerDay := 24 * 60 * 60, daysPerYear := 365, eccentricity := 0,
          semiMajorAxis := 1, massOfSun := 1, axialTilt := 0,
          solarRadius := 1, refractionAtSunset := 0,
          gravitationalConstant := 6.67408e-11 } := by
  simp only [calculateHoursOfDaylight, calculateAngularSolarPathLength,
    calculateSolarMeanAngularVelocity, zero_mul, zero_div, mul_zero,
    Real.sin_zero, sub_zero, Real.cos_zero, one_mul, mul_one, div_one]
  rw [arcsin_one_half, Real.arcsin_one,
    show -2 * (π/6) = -(π/3) by ring, show -2 * (π/2) = -π by ring,
    Real.sin_neg, Real.sin_neg, Real.sin_pi_div_three, Real.sin_pi, neg_zero,
    Real.arccos_neg, arccos_sqrt_three_div_two, Real.arccos_zero]
  have hπ := Real.pi_pos
  have hπn := Real.pi_ne_zero
  intro habs
  field_simp at habs
  nlinarith [mul_pos hπ hπ]

/-- C9 amended: rescaling `semiMajorAxis` by `k > 0`, `massOfSun` by `k³`
(Kepler-consistent) and also `solarRadius` by `k` — so that the apparent
solar disc size is preserved — leaves the day length unchanged. -/
theorem hoursOfDaylight_scale_invariant (cfg : Config) (k : ℝ) (hk : 0 < k) :
    calculateHoursOfDaylight { cfg with
        semiMajorAxis := k * cfg.semiMajorAxis,
        massOfSun := k ^ 3 * cfg.massOfSun,
        solarRadius := k * cfg.solarRadius }
      = calculateHoursOfDaylight cfg := by
  simp only [calculateHoursOfDaylight, calculateAngularSolarPathLength,
    calculateSolarMeanAngularVelocity]
  rw [mul_div_mul_left _ _ hk.ne']

/-- Witness for the amended C9 with `k = 2` on the default configuration. -/
theorem hoursOfDaylight_scale_invariant_witness :
    (0:ℝ) < 2 ∧
      calculateHoursOfDaylight { defaultConfig 0 0 with
          semiMajorAxis := 2 * (defaultConfig 0 0).semiMajorAxis,
          massOfSun := 2 ^ 3 * (defaultConfig 0 0).massOfSun,
          solarRadius := 2 * (defaultConfig 0 0).solarRadius }
        = calculateHoursOfDaylight (defaultConfig 0 0) :=
  ⟨by norm_num, hoursOfDaylight_scale_invariant (defaultConfig 0 0) 2 (by norm_num)⟩
